import Mathlib

/-!
Verification of the virtcontainers resource store, I/O stream proxy and agent
selection of the kata-runtime 1.x sources.

The development is a shallow embedding of:
  src/virtcontainers/filesystem.go  (resource store on a filesystem)
  src/virtcontainers/iostream.go    (per-process stdin/stdout/stderr proxy)
  src/virtcontainers/agent.go       (agent type selection)

Filesystem paths are lists of path components; `filepath.Join(dir, a, b)` with
possibly-empty `a`, `b` is modelled by appending the nonempty components.
JSON serialization of a typed Go value is modelled by storing the typed value
itself (for the value structs involved, `json.Marshal` is injective and
`json.Unmarshal` of the marshalled bytes at the same type is its inverse).
Filesystem faults are injected through two fault sets carried by the
filesystem state: paths where `os.Create`/`os.MkdirAll` fail, and paths where
the subsequent `File.Write` syscall fails.
-/

namespace KataV

/-- Error values. The Go sources use package-level error variables
(`errNeedSandboxID`, `errNeedContainerID`, `errNeedFile`, `errInvalidResource`)
and ad-hoc `errors.New` / `fmt.Errorf` values; each distinguishable error is a
constructor here. `ioError` stands for any error returned by the OS layer
(`os.Create`, `os.MkdirAll`, `File.Write`). -/
inductive Err where
  | needFile
  | needSandboxID
  | needContainerID
  | invalidResource
  | invalidDataType
  | ioError
  | notFound
  | corruptData
  | unknownDeviceType
  | streamClosed
  | agentFailure (msg : String)
  | unknownAgentType (value : String)
deriving DecidableEq, Repr

/-! ## I/O stream proxy (src/virtcontainers/iostream.go)

An `iostream` value is the state of the single Go struct allocated by
`newIOStream`: it has one `closed` flag. In the source, `stdin()`, `stdout()`
and `stderr()` each return a wrapper struct embedding the same `*iostream`
pointer, so all three handles of a process read and write this one flag; the
operations below therefore all act on the one shared `iostream` state.
The agent calls (`writeProcessStdin`, `closeProcessStdin`, `readProcessStdout`,
`readProcessStderr`) are modelled by passing their result in as a parameter:
the stream code only forwards it. Go's `(n int, err error)` pairs are merged
into `Except` (the source returns `0` for `n` on error). -/

structure iostream where
  closed : Bool
deriving DecidableEq, Repr

/-- newIOStream from iostream.go: the freshly allocated stream state. -/
def newIOStream : iostream :=
  { closed := false }

/-- stdinStream.Write: fails with the stream-closed error when the shared
flag is set, otherwise delegates to agent.writeProcessStdin. -/
def stdinStreamWrite (agentRes : Except Err Nat) (s : iostream) : Except Err Nat :=
  if s.closed then .error .streamClosed
  else agentRes

/-- stdinStream.Close: fails when the shared flag is already set; otherwise
calls agent.closeProcessStdin and sets the flag only when that call returned
nil. Returns the call result together with the updated stream state. -/
def stdinStreamClose (agentRes : Except Err Unit) (s : iostream) :
    Except Err Unit × iostream :=
  if s.closed then (.error .streamClosed, s)
  else
    match agentRes with
    | .ok _ => (.ok (), { s with closed := true })
    | .error e => (.error e, s)

/-- stdoutStream.Read: fails with the stream-closed error when the shared flag
is set, otherwise delegates to agent.readProcessStdout. -/
def stdoutStreamRead (agentRes : Except Err Nat) (s : iostream) : Except Err Nat :=
  if s.closed then .error .streamClosed
  else agentRes

/-- stderrStream.Read: fails with the stream-closed error when the shared flag
is set, otherwise delegates to agent.readProcessStderr. -/
def stderrStreamRead (agentRes : Except Err Nat) (s : iostream) : Except Err Nat :=
  if s.closed then .error .streamClosed
  else agentRes

/-! ## Agent selection (src/virtcontainers/agent.go) -/

/-- AgentType is a string in the source. -/
abbrev AgentType := String

/-- NoopAgentType constant. -/
def NoopAgentType : AgentType := "noop"

/-- HyperstartAgent constant. -/
def HyperstartAgent : AgentType := "hyperstart"

/-- KataContainersAgent constant. -/
def KataContainersAgent : AgentType := "kata"

/-- The three concrete agent implementations selected by newAgent. -/
inductive AgentKind where
  | noopAgent
  | hyper
  | kataAgent
deriving DecidableEq, Repr

/-- newAgent from agent.go: selects an implementation from an agent type;
the default branch returns the no-op agent. -/
def newAgent (agentType : AgentType) : AgentKind :=
  if agentType = NoopAgentType then .noopAgent
  else if agentType = HyperstartAgent then .hyper
  else if agentType = KataContainersAgent then .kataAgent
  else .noopAgent

/-- AgentType.Set from agent.go: accepts exactly the three known agent type
strings and rejects anything else with an error. -/
def AgentType.Set (value : String) : Except Err AgentType :=
  if value = "noop" then .ok NoopAgentType
  else if value = "hyperstart" then .ok HyperstartAgent
  else if value = "kata" then .ok KataContainersAgent
  else .error (.unknownAgentType value)

/-- A container: identity unique within its sandbox. The sandbox/container
structs are declared outside the provided sources; only the fields read by
filesystem.go (`sandbox.id`, `sandbox.containers`, `container.id`) are kept. -/
structure Container where
  id : String
deriving DecidableEq, Repr

/-- A sandbox: identity and its containers (see `Container`). -/
structure Sandbox where
  id : String
  containers : List Container
deriving DecidableEq, Repr

/-- Modelled from the spec: the no-op agent implementation (noop_agent.go is
not among the provided sources). Section 4.2 of the specification describes it
as the testing agent; every lifecycle operation succeeds and has no effect,
which for the sandbox-level and container-level operations means returning
success with the sandbox unchanged. Each field is one lifecycle operation of
the agent interface declared in agent.go. -/
structure AgentLifecycleOps where
  initAgent : Sandbox → Except Err Sandbox
  createSandbox : Sandbox → Except Err Sandbox
  startSandbox : Sandbox → Except Err Sandbox
  stopSandbox : Sandbox → Except Err Sandbox
  cleanupSandbox : Sandbox → Except Err Sandbox
  createContainer : Sandbox → Container → Except Err Sandbox
  startContainer : Sandbox → Container → Except Err Sandbox
  stopContainer : Sandbox → Container → Except Err Sandbox
  pauseContainer : Sandbox → Container → Except Err Sandbox
  resumeContainer : Sandbox → Container → Except Err Sandbox

/-- Modelled from the spec: the no-op agent's operations all succeed without
effect. -/
def noopAgentOps : AgentLifecycleOps where
  initAgent := fun sb => .ok sb
  createSandbox := fun sb => .ok sb
  startSandbox := fun sb => .ok sb
  stopSandbox := fun sb => .ok sb
  cleanupSandbox := fun sb => .ok sb
  createContainer := fun sb _ => .ok sb
  startContainer := fun sb _ => .ok sb
  stopContainer := fun sb _ => .ok sb
  pauseContainer := fun sb _ => .ok sb
  resumeContainer := fun sb _ => .ok sb

/-! ## Theorems on the I/O stream proxy and agent selection -/

/-- C2: the claim states that the three stream handles of a process track
open/closed state independently per direction, so that closing stdin leaves
reads on stdout and stderr unaffected. In the source all three handles embed
the same `*iostream` and hence the same `closed` flag: on the freshly created
stream, a successful stdin Close makes a subsequent stdout Read fail with the
stream-closed error, refuting the claim at a concrete input. -/
theorem C2_counterexample :
    (stdinStreamClose (.ok ()) newIOStream).fst = .ok () ∧
    stdoutStreamRead (.ok 7) (stdinStreamClose (.ok ()) newIOStream).snd
      = .error .streamClosed ∧
    stderrStreamRead (.ok 7) (stdinStreamClose (.ok ()) newIOStream).snd
      = .error .streamClosed := by
  refine ⟨rfl, rfl, rfl⟩

/-- C2 (amended): the three stream handles returned for a process share one
closed flag (they wrap the same iostream struct). After a successful Close of
the stdin handle the shared flag is set, and subsequent Read calls on that
process's stdout and stderr handles fail with the stream-closed error. -/
theorem C2_amended (s : iostream) (a : Except Err Unit)
    (r1 r2 : Except Err Nat)
    (h : (stdinStreamClose a s).fst = .ok ()) :
    (stdinStreamClose a s).snd.closed = true ∧
    stdoutStreamRead r1 (stdinStreamClose a s).snd = .error .streamClosed ∧
    stderrStreamRead r2 (stdinStreamClose a s).snd = .error .streamClosed := by
  unfold stdinStreamClose at h ⊢
  by_cases hc : s.closed
  · simp [hc] at h
  · cases a with
    | ok u =>
        simp [hc, stdoutStreamRead, stderrStreamRead]
    | error e =>
        simp [hc] at h

/-- Witness for C2_amended at a concrete input. -/
theorem C2_amended_witness :
    ({ closed := false } : iostream).closed = false ∧
    (stdinStreamClose (.ok ()) { closed := false }).snd.closed = true ∧
    stdoutStreamRead (.ok 3) (stdinStreamClose (.ok ()) { closed := false }).snd
      = .error .streamClosed ∧
    stderrStreamRead (.ok 4) (stdinStreamClose (.ok ()) { closed := false }).snd
      = .error .streamClosed := by
  have h := C2_amended { closed := false } (.ok ()) (.ok 3) (.ok 4) (by rfl)
  exact ⟨rfl, h.1, h.2.1, h.2.2⟩

/-- C6: after a first successful Close of a stdin handle the handle is closed,
and every subsequent Close or Write on it fails with the stream-closed error
(and leaves the handle closed), rather than succeeding silently. -/
theorem C6_close_twice (s : iostream) (a1 a2 : Except Err Unit)
    (w : Except Err Nat)
    (h : (stdinStreamClose a1 s).fst = .ok ()) :
    (stdinStreamClose a1 s).snd.closed = true ∧
    (stdinStreamClose a2 (stdinStreamClose a1 s).snd).fst
      = .error .streamClosed ∧
    stdinStreamWrite w (stdinStreamClose a1 s).snd = .error .streamClosed ∧
    (stdinStreamClose a2 (stdinStreamClose a1 s).snd).snd
      = (stdinStreamClose a1 s).snd := by
  unfold stdinStreamClose at h
  by_cases hc : s.closed
  · simp [hc] at h
  · cases a1 with
    | ok u =>
        constructor
        · simp [stdinStreamClose, hc]
        constructor
        · simp [stdinStreamClose, hc]
        constructor
        · simp [stdinStreamClose, stdinStreamWrite, hc]
        · simp [stdinStreamClose, hc]
    | error e =>
        simp [hc] at h

/-- Witness for C6_close_twice at a concrete input. -/
theorem C6_close_twice_witness :
    (stdinStreamClose (.ok ()) newIOStream).fst = .ok () ∧
    (stdinStreamClose (.ok ()) (stdinStreamClose (.ok ()) newIOStream).snd).fst
      = .error .streamClosed ∧
    stdinStreamWrite (.ok 5) (stdinStreamClose (.ok ()) newIOStream).snd
      = .error .streamClosed := by
  have h := C6_close_twice newIOStream (.ok ()) (.ok ()) (.ok 5) (by rfl)
  exact ⟨by rfl, h.2.1, h.2.2.1⟩

/-- C10: Close marks a stdin handle closed only when the agent call succeeds.
If the agent call fails, Close returns that error with the stream state
unchanged (still open), so a later Write or Close on the handle is not
rejected with the stream-closed error because of the failed attempt. -/
theorem C10_close_failure (s : iostream) (e : Err)
    (w : Except Err Nat) (hopen : s.closed = false) :
    stdinStreamClose (.error e) s = (.error e, s) ∧
    stdinStreamWrite w s = w ∧
    (stdinStreamClose (.ok ()) s).fst = .ok () := by
  refine ⟨?_, ?_, ?_⟩
  · simp [stdinStreamClose, hopen]
  · simp [stdinStreamWrite, hopen]
  · simp [stdinStreamClose, hopen]

/-- Witness for C10_close_failure at a concrete input. -/
theorem C10_close_failure_witness :
    stdinStreamClose (.error (.agentFailure "boom")) newIOStream
      = (.error (.agentFailure "boom"), newIOStream) ∧
    stdinStreamWrite (.ok 2) newIOStream = .ok 2 ∧
    (stdinStreamClose (.ok ()) newIOStream).fst = .ok () := by
  have h := C10_close_failure newIOStream (.agentFailure "boom") (.ok 2) (by rfl)
  exact h

/-- C9: newAgent is total over agent types. For every agent type string other
than noop, hyperstart and kata, it returns the no-op agent (never an error or
a null value: its result type is the set of concrete implementations); on the
no-op agent every lifecycle operation succeeds without effect; and only
AgentType.Set rejects unknown agent type strings with an error. -/
theorem C9_newAgent_total (t : String)
    (h1 : t ≠ "noop") (h2 : t ≠ "hyperstart") (h3 : t ≠ "kata")
    (sb : Sandbox) (c : Container) :
    newAgent t = .noopAgent ∧
    AgentType.Set t = .error (.unknownAgentType t) ∧
    noopAgentOps.initAgent sb = .ok sb ∧
    noopAgentOps.createSandbox sb = .ok sb ∧
    noopAgentOps.startSandbox sb = .ok sb ∧
    noopAgentOps.stopSandbox sb = .ok sb ∧
    noopAgentOps.cleanupSandbox sb = .ok sb ∧
    noopAgentOps.createContainer sb c = .ok sb ∧
    noopAgentOps.startContainer sb c = .ok sb ∧
    noopAgentOps.stopContainer sb c = .ok sb ∧
    noopAgentOps.pauseContainer sb c = .ok sb ∧
    noopAgentOps.resumeContainer sb c = .ok sb := by
  refine ⟨?_, ?_, rfl, rfl, rfl, rfl, rfl, rfl, rfl, rfl, rfl, rfl⟩
  · simp [newAgent, NoopAgentType, HyperstartAgent, KataContainersAgent, h1, h2, h3]
  · simp [AgentType.Set, h1, h2, h3]

/-- Witness for C9_newAgent_total at a concrete input. -/
theorem C9_newAgent_total_witness :
    newAgent "ccloudhv" = .noopAgent ∧
    AgentType.Set "ccloudhv" = .error (.unknownAgentType "ccloudhv") := by
  have h := C9_newAgent_total "ccloudhv" (by decide) (by decide) (by decide)
    { id := "sb", containers := [] } { id := "c" }
  exact ⟨h.1, h.2.1⟩

/-! ## Resource store (src/virtcontainers/filesystem.go) -/

/-- sandboxResource from filesystem.go: the resource kinds. -/
inductive sandboxResource where
  | configFileType
  | stateFileType
  | networkFileType
  | hypervisorFileType
  | agentFileType
  | processFileType
  | lockFileType
  | mountsFileType
  | devicesFileType
deriving DecidableEq, Repr

/-- Filesystem paths as lists of components. -/
abbrev Path := List String

/-- configStoragePath: filepath.Join("/var/lib", "/vc/sbs"). -/
def configStoragePath : Path := ["/var/lib", "vc", "sbs"]

/-- runStoragePath: filepath.Join("/run", "/vc/sbs"). -/
def runStoragePath : Path := ["/run", "vc", "sbs"]

/-- filepath.Join(dir, e1, e2, ...): empty components are dropped. -/
def pathJoin (dir : Path) (elems : List String) : Path :=
  dir ++ elems.filter (fun e => !(e == ""))

/-- Canonical file names per resource kind (the switch in resourceURI). -/
def resourceFileName : sandboxResource → String
  | .configFileType => "config.json"
  | .stateFileType => "state.json"
  | .networkFileType => "network.json"
  | .hypervisorFileType => "hypervisor.json"
  | .agentFileType => "agent.json"
  | .processFileType => "process.json"
  | .lockFileType => "lock"
  | .mountsFileType => "mounts.json"
  | .devicesFileType => "devices.json"

/-- State value object attached to sandboxes and containers. The struct is
declared outside the provided sources; the store treats it as an opaque
JSON-serializable value, so a representative field stands for its content. -/
structure State where
  stateStr : String
deriving DecidableEq, Repr, Inhabited

/-- SandboxConfig: opaque configuration blob for a sandbox. -/
structure SandboxConfig where
  id : String
  agentType : AgentType
deriving DecidableEq, Repr, Inhabited

/-- ContainerConfig: the immutable spec used at container creation. -/
structure ContainerConfig where
  id : String
deriving DecidableEq, Repr, Inhabited

/-- NetworkNamespace: path/identity of the sandbox's network namespace. -/
structure NetworkNamespace where
  netNsPath : String
  netNsCreated : Bool
deriving DecidableEq, Repr, Inhabited

/-- Process: primary process description of a container. -/
structure Process where
  token : String
  pid : Int
deriving DecidableEq, Repr, Inhabited

/-- Mount: one mount entry (order matters in the stored sequence). -/
structure Mount where
  source : String
  destination : String
  mountType : String
  options : List String
deriving DecidableEq, Repr, Inhabited

/-- Modelled from the spec: the device driver structs live in the
device/drivers package, which is not among the provided sources; per the
specification each variant carries its own attributes (host path, guest path,
major/minor, etc.). Shared attribute block of a device. -/
structure DeviceInfo where
  hostPath : String
  containerPath : String
  devType : String
  major : Int
  minor : Int
deriving DecidableEq, Repr, Inhabited

/-- Modelled from the spec: VFIO device variant (drivers.VFIODevice). -/
structure VFIODevice where
  deviceInfo : DeviceInfo
  bdf : String
deriving DecidableEq, Repr, Inhabited

/-- Modelled from the spec: block device variant (drivers.BlockDevice). -/
structure BlockDevice where
  deviceInfo : DeviceInfo
  virtPath : String
deriving DecidableEq, Repr, Inhabited

/-- Modelled from the spec: generic device variant (drivers.GenericDevice). -/
structure GenericDevice where
  deviceInfo : DeviceInfo
deriving DecidableEq, Repr, Inhabited

/-- api.Device: the closed set of device variants handled by
storeDeviceFile/fetchDeviceFile. -/
inductive Device where
  | vfio (d : VFIODevice)
  | blockDev (d : BlockDevice)
  | generic (d : GenericDevice)
deriving DecidableEq, Repr

/-- Modelled from the spec: the config.DeviceVFIO tag string (the device/config
package is not among the provided sources; the name here drops the original
Go spelling to fit local naming). -/
def VFIODeviceTag : String := "vfio"

/-- Modelled from the spec: the config device tag string for block devices. -/
def BlockDeviceTag : String := "block"

/-- Modelled from the spec: the config device tag string for generic devices. -/
def GenericDeviceTag : String := "generic"

/-- Device.DeviceType(): the type tag of a device variant. -/
def Device.deviceType : Device → String
  | .vfio _ => VFIODeviceTag
  | .blockDev _ => BlockDeviceTag
  | .generic _ => GenericDeviceTag

/-- json.RawMessage holding the marshalled bytes of a device. Marshalling is
injective on each driver struct, so the raw bytes are modelled by the device
value itself. -/
abbrev RawMessage := Device

/-- TypedDevice from filesystem.go: the tagged envelope `{Type, Data}` used to
persist devices. `typeTag` is the Go field `Type`. -/
structure TypedDevice where
  typeTag : String
  data : RawMessage
deriving DecidableEq, Repr

/-- json.Unmarshal of raw device bytes into a drivers.VFIODevice target.
For bytes marshalled from a VFIODevice this recovers the value; for bytes
marshalled from another variant Go fills only matching fields and yields a
zero-valued struct, modelled by `default` (no claim exercises that case). -/
def unmarshalVFIODevice : RawMessage → VFIODevice
  | .vfio d => d
  | _ => default

/-- json.Unmarshal of raw device bytes into a drivers.BlockDevice target. -/
def unmarshalBlockDevice : RawMessage → BlockDevice
  | .blockDev d => d
  | _ => default

/-- json.Unmarshal of raw device bytes into a drivers.GenericDevice target. -/
def unmarshalGenericDevice : RawMessage → GenericDevice
  | .generic d => d
  | _ => default

/-- The loop body of storeDeviceFile: wrap one device into its envelope. -/
def marshalDevice (d : Device) : TypedDevice :=
  { typeTag := d.deviceType, data := d }

/-- File contents: the JSON-serialized form of each storable value, plus the
empty content left by `os.Create` before (or without) a successful write. -/
inductive Value where
  | jSandboxConfig (c : SandboxConfig)
  | jContainerConfig (c : ContainerConfig)
  | jState (s : State)
  | jNetwork (n : NetworkNamespace)
  | jProcess (p : Process)
  | jMounts (m : List Mount)
  | jTypedDevices (tds : List TypedDevice)
  | jEmpty
deriving DecidableEq, Repr

/-- Filesystem state: files (path to content), directories, and two injected
fault sets: paths where `os.Create`/`os.MkdirAll` fail, and paths where the
`File.Write` syscall fails after a successful create. -/
structure FS where
  files : List (Path × Value)
  dirs : List Path
  createFailing : List Path
  writeFailing : List Path
deriving DecidableEq, Repr

/-- Look up the content of a file. -/
def FS.lookupFile (fs : FS) (p : Path) : Option Value :=
  (fs.files.find? (fun e => e.fst == p)).map (fun e => e.snd)

/-- Overwrite (or create) the file at `p` with content `v`. -/
def FS.putFile (fs : FS) (p : Path) (v : Value) : FS :=
  { fs with files := (p, v) :: fs.files.filter (fun e => !(e.fst == p)) }

/-- Whether a directory exists. -/
def FS.hasDir (fs : FS) (p : Path) : Bool :=
  fs.dirs.contains p

/-- Parent directory of a file path. -/
def parentDir (p : Path) : Path :=
  p.dropLast

/-- Component-wise test that `p` lies at or below directory `dir`. -/
def underDir (dir p : Path) : Bool :=
  match dir, p with
  | [], _ => true
  | _ :: _, [] => false
  | a :: as, b :: bs => a == b && underDir as bs

/-- os.MkdirAll: fails on an injected fault or on the empty path (Go's
MkdirAll("") fails with ENOENT; filesystem.go ignores URI errors and can pass
the empty path here). Parent directories are implied existing; only the full
path is recorded since nothing distinguishes ancestors. -/
def mkdirAll (p : Path) (fs : FS) : Except Err FS :=
  if p = [] then .error .ioError
  else if fs.createFailing.contains p then .error .ioError
  else .ok { fs with dirs := p :: fs.dirs }

/-- os.Create: fails on an injected fault or when the parent directory does
not exist; on success the file exists truncated to empty content. -/
def osCreate (p : Path) (fs : FS) : Except Err FS :=
  if fs.createFailing.contains p then .error .ioError
  else if fs.hasDir (parentDir p) then .ok (fs.putFile p .jEmpty)
  else .error .ioError

/-- File.Write of the serialized bytes: fails on an injected fault, otherwise
replaces the file content. -/
def fileWrite (p : Path) (v : Value) (fs : FS) : Except Err FS :=
  if fs.writeFailing.contains p then .error .ioError
  else .ok (fs.putFile p v)

/-- os.RemoveAll: removes the file/directory at `dir` and everything below
it; succeeds whether or not the path exists. -/
def removeAll (dir : Path) (fs : FS) : FS :=
  { fs with
    files := fs.files.filter (fun e => !(underDir dir e.fst))
    dirs := fs.dirs.filter (fun d => !(underDir dir d)) }

/-- resourceNeedsContainerID from filesystem.go. -/
def resourceNeedsContainerID (sandboxSpecific : Bool) (resource : sandboxResource) : Bool :=
  match resource with
  | .lockFileType | .networkFileType | .hypervisorFileType | .agentFileType => false
  | _ => !sandboxSpecific

/-- resourceDir from filesystem.go: the directory a resource lives under.
The root is fixed per kind (configuration root for configFileType, runtime
root for all the others); the enum is closed so the Go default branch
(errInvalidResource) is unreachable. -/
def resourceDir (sandboxSpecific : Bool) (sandboxID containerID : String)
    (resource : sandboxResource) : Except Err Path :=
  if sandboxID = "" then .error .needSandboxID
  else if resourceNeedsContainerID sandboxSpecific resource = true ∧ containerID = "" then
    .error .needContainerID
  else
    match resource with
    | .configFileType => .ok (pathJoin configStoragePath [sandboxID, containerID])
    | _ => .ok (pathJoin runStoragePath [sandboxID, containerID])

/-- resourceURI from filesystem.go: the file path and directory path of a
resource. -/
def resourceURI (sandboxSpecific : Bool) (sandboxID containerID : String)
    (resource : sandboxResource) : Except Err (Path × Path) :=
  if sandboxID = "" then .error .needSandboxID
  else
    match resourceDir sandboxSpecific sandboxID containerID resource with
    | .error e => .error e
    | .ok dirPath => .ok (dirPath ++ [resourceFileName resource], dirPath)

/-- containerURI from filesystem.go. -/
def containerURI (sandboxID containerID : String) (resource : sandboxResource) :
    Except Err (Path × Path) :=
  if sandboxID = "" then .error .needSandboxID
  else if containerID = "" then .error .needContainerID
  else resourceURI false sandboxID containerID resource

/-- sandboxURI from filesystem.go. -/
def sandboxURI (sandboxID : String) (resource : sandboxResource) :
    Except Err (Path × Path) :=
  resourceURI true sandboxID "" resource

/-- commonResourceChecks from filesystem.go: identifier checks plus the kind
allowlist (lockFileType is not storable/fetchable and hits the default
errInvalidResource branch). -/
def commonResourceChecks (sandboxSpecific : Bool) (sandboxID containerID : String)
    (resource : sandboxResource) : Except Err Unit :=
  if sandboxID = "" then .error .needSandboxID
  else if resourceNeedsContainerID sandboxSpecific resource = true ∧ containerID = "" then
    .error .needContainerID
  else
    match resource with
    | .lockFileType => .error .invalidResource
    | _ => .ok ()

/-- storeFile from filesystem.go: create the file, marshal the value (which
cannot fail for these value types), then write. The source does not check the
error of `f.Write(jsonOut)`, so a failed write still returns success and
leaves the file with the empty content `os.Create` produced. -/
def storeFile (file : Path) (data : Value) (fs : FS) : Except Err FS :=
  if file = [] then .error .needFile
  else
    match osCreate file fs with
    | .error e => .error e
    | .ok fs1 =>
      match fileWrite file data fs1 with
      | .error _ => .ok fs1
      | .ok fs2 => .ok fs2

/-- storeDeviceFile from filesystem.go: create the file, wrap each device in
its typed envelope, marshal the envelope list and write it. Unlike storeFile,
the source checks the error of `f.Write(jsonOut)`. The Go type assertion on
`data.([]api.Device)` is discharged by typing here (storeDeviceFile is only
reached through the []api.Device branch of storeResource). -/
def storeDeviceFile (file : Path) (devices : List Device) (fs : FS) : Except Err FS :=
  if file = [] then .error .needFile
  else
    match osCreate file fs with
    | .error e => .error e
    | .ok fs1 =>
      let typedDevices := devices.map marshalDevice
      match fileWrite file (.jTypedDevices typedDevices) fs1 with
      | .error e => .error e
      | .ok fs2 => .ok fs2

/-- fetchDeviceFile from filesystem.go: decode each envelope by dispatching
on its Type tag to the matching concrete decoder; an unrecognized tag aborts
with the unknown-device-type error. -/
def fetchDeviceFile : List TypedDevice → Except Err (List Device)
  | [] => .ok []
  | td :: rest =>
    if td.typeTag = VFIODeviceTag then
      match fetchDeviceFile rest with
      | .error e => .error e
      | .ok ds => .ok (Device.vfio (unmarshalVFIODevice td.data) :: ds)
    else if td.typeTag = BlockDeviceTag then
      match fetchDeviceFile rest with
      | .error e => .error e
      | .ok ds => .ok (Device.blockDev (unmarshalBlockDevice td.data) :: ds)
    else if td.typeTag = GenericDeviceTag then
      match fetchDeviceFile rest with
      | .error e => .error e
      | .ok ds => .ok (Device.generic (unmarshalGenericDevice td.data) :: ds)
    else .error .unknownDeviceType

/-- The `data interface{}` argument of storeResource: each Go value type that
the type switch accepts. -/
inductive StoreData where
  | sandboxConfig (c : SandboxConfig)
  | containerConfig (c : ContainerConfig)
  | state (s : State)
  | network (n : NetworkNamespace)
  | process (p : Process)
  | mounts (m : List Mount)
  | devices (ds : List Device)
deriving DecidableEq, Repr

/-- The typed out-parameter passed to fetchResource by its callers. -/
inductive FetchTarget where
  | tSandboxConfig
  | tContainerConfig
  | tState
  | tNetwork
  | tProcess
  | tMounts
  | tDevices
deriving DecidableEq, Repr

/-- json.Unmarshal of file bytes into the caller's typed out-parameter:
bytes serialized at the same type decode to the original value; any other
combination is modelled as a decode failure (through the typed fetch wrappers
of filesystem.go the target type always matches the stored kind, so no claim
depends on Go's lenient unmarshalling of mismatched JSON). -/
def unmarshalAs (t : FetchTarget) (v : Value) : Except Err StoreData :=
  match t, v with
  | .tSandboxConfig, .jSandboxConfig c => .ok (.sandboxConfig c)
  | .tContainerConfig, .jContainerConfig c => .ok (.containerConfig c)
  | .tState, .jState s => .ok (.state s)
  | .tNetwork, .jNetwork n => .ok (.network n)
  | .tProcess, .jProcess p => .ok (.process p)
  | .tMounts, .jMounts m => .ok (.mounts m)
  | _, _ => .error .corruptData

/-- fetchFile from filesystem.go: read the file (absent file is the not-found
error), then for devicesFileType cast the target to a device slice and run
fetchDeviceFile on the decoded envelope list, otherwise json.Unmarshal into
the target. -/
def fetchFile (file : Path) (resource : sandboxResource) (target : FetchTarget)
    (fs : FS) : Except Err StoreData :=
  if file = [] then .error .needFile
  else
    match fs.lookupFile file with
    | none => .error .notFound
    | some fileData =>
      if resource = .devicesFileType then
        if target = .tDevices then
          match fileData with
          | .jTypedDevices tds =>
            match fetchDeviceFile tds with
            | .error e => .error e
            | .ok ds => .ok (.devices ds)
          | _ => .error .corruptData
        else .error .invalidDataType
      else unmarshalAs target fileData

/-- storeSandboxAndContainerConfigResource from filesystem.go. -/
def storeSandboxAndContainerConfigResource (sandboxSpecific : Bool)
    (sandboxID containerID : String) (resource : sandboxResource)
    (file : Value) (fs : FS) : Except Err FS :=
  if resource ≠ .configFileType then .error .invalidResource
  else
    match resourceURI sandboxSpecific sandboxID containerID .configFileType with
    | .error e => .error e
    | .ok (cfgFile, _) => storeFile cfgFile file fs

/-- storeStateResource from filesystem.go. -/
def storeStateResource (sandboxSpecific : Bool) (sandboxID containerID : String)
    (resource : sandboxResource) (file : Value) (fs : FS) : Except Err FS :=
  if resource ≠ .stateFileType then .error .invalidResource
  else
    match resourceURI sandboxSpecific sandboxID containerID .stateFileType with
    | .error e => .error e
    | .ok (stFile, _) => storeFile stFile file fs

/-- storeNetworkResource from filesystem.go: a sandbox-only resource, the URI
is resolved with the sandbox-specific flag forced to true. -/
def storeNetworkResource (sandboxSpecific : Bool) (sandboxID containerID : String)
    (resource : sandboxResource) (file : Value) (fs : FS) : Except Err FS :=
  if resource ≠ .networkFileType then .error .invalidResource
  else
    match resourceURI true sandboxID containerID .networkFileType with
    | .error e => .error e
    | .ok (nFile, _) => storeFile nFile file fs

/-- storeProcessResource from filesystem.go. -/
def storeProcessResource (sandboxSpecific : Bool) (sandboxID containerID : String)
    (resource : sandboxResource) (file : Value) (fs : FS) : Except Err FS :=
  if resource ≠ .processFileType then .error .invalidResource
  else
    match resourceURI sandboxSpecific sandboxID containerID .processFileType with
    | .error e => .error e
    | .ok (pFile, _) => storeFile pFile file fs

/-- storeMountResource from filesystem.go. -/
def storeMountResource (sandboxSpecific : Bool) (sandboxID containerID : String)
    (resource : sandboxResource) (file : Value) (fs : FS) : Except Err FS :=
  if resource ≠ .mountsFileType then .error .invalidResource
  else
    match resourceURI sandboxSpecific sandboxID containerID .mountsFileType with
    | .error e => .error e
    | .ok (mFile, _) => storeFile mFile file fs

/-- storeDeviceResource from filesystem.go. -/
def storeDeviceResource (sandboxSpecific : Bool) (sandboxID containerID : String)
    (resource : sandboxResource) (devices : List Device) (fs : FS) : Except Err FS :=
  if resource ≠ .devicesFileType then .error .invalidResource
  else
    match resourceURI sandboxSpecific sandboxID containerID .devicesFileType with
    | .error e => .error e
    | .ok (dFile, _) => storeDeviceFile dFile devices fs

/-- storeResource from filesystem.go: common checks then dispatch on the data
type. -/
def storeResource (sandboxSpecific : Bool) (sandboxID containerID : String)
    (resource : sandboxResource) (data : StoreData) (fs : FS) : Except Err FS :=
  match commonResourceChecks sandboxSpecific sandboxID containerID resource with
  | .error e => .error e
  | .ok _ =>
    match data with
    | .sandboxConfig c =>
      storeSandboxAndContainerConfigResource sandboxSpecific sandboxID containerID
        resource (.jSandboxConfig c) fs
    | .containerConfig c =>
      storeSandboxAndContainerConfigResource sandboxSpecific sandboxID containerID
        resource (.jContainerConfig c) fs
    | .state s =>
      storeStateResource sandboxSpecific sandboxID containerID resource (.jState s) fs
    | .network n =>
      storeNetworkResource sandboxSpecific sandboxID containerID resource (.jNetwork n) fs
    | .process p =>
      storeProcessResource sandboxSpecific sandboxID containerID resource (.jProcess p) fs
    | .mounts m =>
      storeMountResource sandboxSpecific sandboxID containerID resource (.jMounts m) fs
    | .devices ds =>
      storeDeviceResource sandboxSpecific sandboxID containerID resource ds fs

/-- fetchResource from filesystem.go: common checks, URI resolution, then
fetchFile. -/
def fetchResource (sandboxSpecific : Bool) (sandboxID containerID : String)
    (resource : sandboxResource) (target : FetchTarget) (fs : FS) :
    Except Err StoreData :=
  match commonResourceChecks sandboxSpecific sandboxID containerID resource with
  | .error e => .error e
  | .ok _ =>
    match resourceURI sandboxSpecific sandboxID containerID resource with
    | .error e => .error e
    | .ok (path, _) => fetchFile path resource target fs

/-- The loop of deleteSandboxResources: resolve each kind's sandbox directory
and RemoveAll it, accumulating the filesystem mutations (an error aborts the
loop but keeps earlier removals). -/
def deleteSandboxLoop (sandboxID : String) :
    List sandboxResource → FS → Except Err Unit × FS
  | [], fs => (.ok (), fs)
  | r :: rest, fs =>
    match sandboxURI sandboxID r with
    | .error e => (.error e, fs)
    | .ok (_, dir) => deleteSandboxLoop sandboxID rest (removeAll dir fs)

/-- deleteSandboxResources from filesystem.go: a nil resource list (modelled
by `none`) defaults to configuration and state, and each selected kind's whole
sandbox directory is removed recursively. -/
def deleteSandboxResources (sandboxID : String)
    (resources : Option (List sandboxResource)) (fs : FS) : Except Err Unit × FS :=
  match resources with
  | none => deleteSandboxLoop sandboxID [.configFileType, .stateFileType] fs
  | some rs => deleteSandboxLoop sandboxID rs fs

/-- storeContainerResource from filesystem.go. -/
def storeContainerResource (sandboxID containerID : String)
    (resource : sandboxResource) (data : StoreData) (fs : FS) : Except Err FS :=
  if sandboxID = "" then .error .needSandboxID
  else if containerID = "" then .error .needContainerID
  else storeResource false sandboxID containerID resource data fs

/-- The first loop of createAllResources: MkdirAll the sandbox directory of
each listed kind. The source discards the sandboxURI error and passes the
(then empty) path straight to MkdirAll. No rollback happens on failure here. -/
def createSandboxDirs (sandboxID : String) :
    List sandboxResource → FS → Except Err Unit × FS
  | [], fs => (.ok (), fs)
  | r :: rest, fs =>
    let dirPath :=
      match sandboxURI sandboxID r with
      | .ok (_, d) => d
      | .error _ => []
    match mkdirAll dirPath fs with
    | .error e => (.error e, fs)
    | .ok fs1 => createSandboxDirs sandboxID rest fs1

/-- The inner loop of createAllResources for one container: MkdirAll the
container directory of each listed kind (the containerURI error is discarded
like in the sandbox loop). -/
def createOneContainerDirs (sandboxID containerID : String) :
    List sandboxResource → FS → Except Err Unit × FS
  | [], fs => (.ok (), fs)
  | r :: rest, fs =>
    let dirPath :=
      match containerURI sandboxID containerID r with
      | .ok (_, d) => d
      | .error _ => []
    match mkdirAll dirPath fs with
    | .error e => (.error e, fs)
    | .ok fs1 => createOneContainerDirs sandboxID containerID rest fs1

/-- The container loop of createAllResources over all containers. -/
def createContainerDirs (sandboxID : String) :
    List Container → FS → Except Err Unit × FS
  | [], fs => (.ok (), fs)
  | c :: rest, fs =>
    match createOneContainerDirs sandboxID c.id
        [.stateFileType, .configFileType] fs with
    | (.error e, fs1) => (.error e, fs1)
    | (.ok _, fs1) => createContainerDirs sandboxID rest fs1

/-- createAllResources from filesystem.go: create the sandbox directories for
state and configuration, then each container's directories, then the lock
file if absent. A failure in the container loop or in the lock phase rolls
back with deleteSandboxResources(sandboxID, nil) (whose own error the source
discards) before returning the error; a failure in the first loop returns
without rollback. -/
def createAllResources (sandbox : Sandbox) (fs : FS) : Except Err Unit × FS :=
  match createSandboxDirs sandbox.id [.stateFileType, .configFileType] fs with
  | (.error e, fs1) => (.error e, fs1)
  | (.ok _, fs1) =>
    match createContainerDirs sandbox.id sandbox.containers fs1 with
    | (.error e, fs2) =>
      (.error e, (deleteSandboxResources sandbox.id none fs2).snd)
    | (.ok _, fs2) =>
      match sandboxURI sandbox.id .lockFileType with
      | .error e =>
        (.error e, (deleteSandboxResources sandbox.id none fs2).snd)
      | .ok (lockPath, _) =>
        match fs2.lookupFile lockPath with
        | some _ => (.ok (), fs2)
        | none =>
          match osCreate lockPath fs2 with
          | .error e =>
            (.error e, (deleteSandboxResources sandbox.id none fs2).snd)
          | .ok fs3 => (.ok (), fs3)

/-- Fixed root directory per resource kind (the switch in resourceDir). -/
def resourceRoot (r : sandboxResource) : Path :=
  if r = .configFileType then configStoragePath else runStoragePath

/-- The directory of a container-scoped resource as laid out by resourceDir. -/
def containerResourceDirPath (S C : String) (r : sandboxResource) : Path :=
  pathJoin (resourceRoot r) [S, C]

/-- The canonical file of a container-scoped resource. -/
def containerResourcePath (S C : String) (r : sandboxResource) : Path :=
  containerResourceDirPath S C r ++ [resourceFileName r]

/-- The resource kind a storeResource data value is dispatched to. -/
def kindOf : StoreData → sandboxResource
  | .sandboxConfig _ => .configFileType
  | .containerConfig _ => .configFileType
  | .state _ => .stateFileType
  | .network _ => .networkFileType
  | .process _ => .processFileType
  | .mounts _ => .mountsFileType
  | .devices _ => .devicesFileType

/-- The typed out-parameter the fetch wrappers pair with each data value. -/
def targetOf : StoreData → FetchTarget
  | .sandboxConfig _ => .tSandboxConfig
  | .containerConfig _ => .tContainerConfig
  | .state _ => .tState
  | .network _ => .tNetwork
  | .process _ => .tProcess
  | .mounts _ => .tMounts
  | .devices _ => .tDevices

/-- Store a value at its kind for (S, C), then fetch the same triple. -/
def storeThenFetch (S C : String) (d : StoreData) (fs : FS) : Except Err StoreData :=
  match storeResource false S C (kindOf d) d fs with
  | .error e => .error e
  | .ok fs2 => fetchResource false S C (kindOf d) (targetOf d) fs2

/-- Whether a device envelope tag is one of the three dispatched tags. -/
def isKnownDeviceTag (t : String) : Bool :=
  t == VFIODeviceTag || t == BlockDeviceTag || t == GenericDeviceTag

/-- The per-envelope decoder applied by the fetchDeviceFile loop: dispatch on
the Type tag to the matching concrete decoder. -/
def decodeTypedDevice (td : TypedDevice) : Device :=
  if td.typeTag = VFIODeviceTag then .vfio (unmarshalVFIODevice td.data)
  else if td.typeTag = BlockDeviceTag then .blockDev (unmarshalBlockDevice td.data)
  else .generic (unmarshalGenericDevice td.data)

/-! ## Helper lemmas -/

theorem underDir_append (d rest : Path) : underDir d (d ++ rest) = true := by
  induction d with
  | nil => rfl
  | cons a as ih => simp [underDir, ih]

theorem lookupFile_putFile_self (fs : FS) (p : Path) (v : Value) :
    (fs.putFile p v).lookupFile p = some v := by
  simp [FS.putFile, FS.lookupFile, List.find?]

theorem find_filter_underDir_none (files : List (Path × Value)) (dir p : Path)
    (h : underDir dir p = true) :
    (files.filter (fun e => !(underDir dir e.fst))).find? (fun e => e.fst == p)
      = none := by
  induction files with
  | nil => rfl
  | cons e rest ih =>
    rw [List.filter_cons]
    by_cases hu : underDir dir e.fst = true
    · simp [hu, ih]
    · have hne : (e.fst == p) = false := by
        rw [beq_eq_false_iff_ne]
        intro hEq
        rw [hEq] at hu
        exact hu h
      simp [hu, List.find?, hne, ih]

theorem lookupFile_removeAll_of_under (fs : FS) (dir p : Path)
    (h : underDir dir p = true) :
    (removeAll dir fs).lookupFile p = none := by
  unfold removeAll FS.lookupFile
  simp [find_filter_underDir_none fs.files dir p h]

theorem find_filter_none_of_none (files : List (Path × Value)) (q : Path × Value → Bool)
    (p : Path) (h : files.find? (fun e => e.fst == p) = none) :
    (files.filter q).find? (fun e => e.fst == p) = none := by
  induction files with
  | nil => rfl
  | cons e rest ih =>
    by_cases he : (e.fst == p) = true
    · simp [List.find?, he] at h
    · have hne : (e.fst == p) = false := by
        cases hb : (e.fst == p) with
        | true => exact absurd hb he
        | false => rfl
      simp only [List.find?, hne] at h
      rw [List.filter_cons]
      by_cases hq : q e = true
      · simp only [hq, if_pos]
        simp only [List.find?, hne]
        exact ih h
      · simp only [hq]
        simp only [Bool.false_eq_true, if_neg, not_false_iff]
        exact ih h

theorem lookupFile_removeAll_of_none (fs : FS) (dir p : Path)
    (h : fs.lookupFile p = none) :
    (removeAll dir fs).lookupFile p = none := by
  unfold removeAll FS.lookupFile
  unfold FS.lookupFile at h
  cases hf : fs.files.find? (fun e => e.fst == p) with
  | none =>
    simp [find_filter_none_of_none fs.files _ p hf]
  | some e =>
    rw [hf] at h
    simp at h

theorem hasDir_removeAll_of_under (fs : FS) (dir p : Path)
    (h : underDir dir p = true) :
    (removeAll dir fs).hasDir p = false := by
  unfold removeAll FS.hasDir
  simp only
  rw [Bool.eq_false_iff]
  intro hcon
  have hmem := List.elem_iff.mp hcon
  have := List.of_mem_filter hmem
  rw [h] at this
  simp at this

theorem hasDir_removeAll_of_false (fs : FS) (dir p : Path)
    (h : fs.hasDir p = false) :
    (removeAll dir fs).hasDir p = false := by
  unfold removeAll FS.hasDir
  unfold FS.hasDir at h
  simp only
  rw [Bool.eq_false_iff]
  intro hcon
  have hmem := List.elem_iff.mp hcon
  have hmem2 := List.mem_of_mem_filter hmem
  rw [Bool.eq_false_iff] at h
  exact h (List.elem_iff.mpr hmem2)

theorem resourceNeedsContainerID_true (r : sandboxResource) :
    resourceNeedsContainerID true r = false := by
  cases r <;> rfl

theorem commonResourceChecks_ok (spec : Bool) (S C : String) (hS : S ≠ "")
    (r : sandboxResource) (hr : r ≠ .lockFileType)
    (hneed : ¬(resourceNeedsContainerID spec r = true ∧ C = "")) :
    commonResourceChecks spec S C r = .ok () := by
  unfold commonResourceChecks
  rw [if_neg hS, if_neg hneed]
  cases r <;> simp_all

theorem resourceURI_ok (spec : Bool) (S C : String) (hS : S ≠ "")
    (r : sandboxResource)
    (hneed : ¬(resourceNeedsContainerID spec r = true ∧ C = "")) :
    resourceURI spec S C r =
      .ok (containerResourcePath S C r, containerResourceDirPath S C r) := by
  unfold resourceURI resourceDir containerResourcePath containerResourceDirPath resourceRoot
  rw [if_neg hS, if_neg hS, if_neg hneed]
  cases r <;> rfl

theorem fetchDeviceFile_marshal (ds : List Device) :
    fetchDeviceFile (ds.map marshalDevice) = .ok ds := by
  induction ds with
  | nil => rfl
  | cons d rest ih =>
    cases d <;>
      simp [marshalDevice, Device.deviceType, fetchDeviceFile, ih,
        unmarshalVFIODevice, unmarshalBlockDevice, unmarshalGenericDevice,
        VFIODeviceTag, BlockDeviceTag, GenericDeviceTag]

theorem parentDir_concat (xs : Path) (a : String) : parentDir (xs ++ [a]) = xs := by
  simp [parentDir]

theorem containerResourcePath_ne_nil (S C : String) (r : sandboxResource) :
    containerResourcePath S C r ≠ [] := by
  simp [containerResourcePath]

theorem storeFile_ok (p : Path) (v : Value) (fs : FS)
    (hp : p ≠ [])
    (hcf : p ∉ fs.createFailing)
    (hdir : parentDir p ∈ fs.dirs)
    (hwf : p ∉ fs.writeFailing) :
    storeFile p v fs = .ok ((fs.putFile p .jEmpty).putFile p v) := by
  unfold storeFile osCreate fileWrite FS.putFile FS.hasDir
  simp [hp, hcf, hdir, hwf]

theorem storeDeviceFile_ok (p : Path) (ds : List Device) (fs : FS)
    (hp : p ≠ [])
    (hcf : p ∉ fs.createFailing)
    (hdir : parentDir p ∈ fs.dirs)
    (hwf : p ∉ fs.writeFailing) :
    storeDeviceFile p ds fs
      = .ok ((fs.putFile p .jEmpty).putFile p (.jTypedDevices (ds.map marshalDevice))) := by
  unfold storeDeviceFile osCreate fileWrite FS.putFile FS.hasDir
  simp [hp, hcf, hdir, hwf]

theorem fetchResource_stored_plain (spec : Bool) (S C : String) (hS : S ≠ "")
    (r : sandboxResource) (t : FetchTarget) (v : Value) (fs2 : FS)
    (hneed : ¬(resourceNeedsContainerID spec r = true ∧ C = ""))
    (hr : r ≠ .lockFileType) (hrd : r ≠ .devicesFileType)
    (hlook : fs2.lookupFile (containerResourcePath S C r) = some v) :
    fetchResource spec S C r t fs2 = unmarshalAs t v := by
  unfold fetchResource
  rw [commonResourceChecks_ok spec S C hS r hr hneed,
    resourceURI_ok spec S C hS r hneed]
  unfold fetchFile
  simp [containerResourcePath_ne_nil S C r, hlook, hrd]

theorem fetchResource_stored_devices (spec : Bool) (S C : String) (hS : S ≠ "")
    (ds : List Device) (fs2 : FS)
    (hneed : ¬(resourceNeedsContainerID spec .devicesFileType = true ∧ C = ""))
    (hlook : fs2.lookupFile (containerResourcePath S C .devicesFileType)
      = some (.jTypedDevices (ds.map marshalDevice))) :
    fetchResource spec S C .devicesFileType .tDevices fs2 = .ok (.devices ds) := by
  unfold fetchResource
  rw [commonResourceChecks_ok spec S C hS .devicesFileType (by simp) hneed,
    resourceURI_ok spec S C hS .devicesFileType hneed]
  unfold fetchFile
  simp [containerResourcePath_ne_nil S C .devicesFileType, hlook,
    fetchDeviceFile_marshal ds]

/-! ## Theorems on the resource store -/

/-- C1: for every sandbox ID S and container ID C (both nonempty), resource
kind k and value v of the shape valid for k (state, config, network, process,
mounts, devices): on a filesystem where the sandbox/container directory
skeleton exists and the OS does not fail the create or write of the kind's
canonical file, the store of v under (S, C, k) succeeds and a subsequent
fetch of (S, C, k) returns a value equal to v. (A store whose underlying
write syscall fails also reports success because storeFile ignores that
error — that divergence is the subject of the C8 result — so the write-fault
hypothesis here is what makes "successful store" mean the bytes landed.) -/
theorem C1_roundtrip (S C : String) (hS : S ≠ "") (hC : C ≠ "")
    (d : StoreData) (fs : FS)
    (hdir : containerResourceDirPath S C (kindOf d) ∈ fs.dirs)
    (hcf : containerResourcePath S C (kindOf d) ∉ fs.createFailing)
    (hwf : containerResourcePath S C (kindOf d) ∉ fs.writeFailing) :
    storeThenFetch S C d fs = .ok d := by
  cases d with
  | sandboxConfig c =>
    simp only [kindOf] at hdir hcf hwf
    have hneedF : ¬(resourceNeedsContainerID false .configFileType = true ∧ C = "") :=
      fun h => hC h.2
    have hchk := commonResourceChecks_ok false S C hS .configFileType (by simp) hneedF
    have huri := resourceURI_ok false S C hS .configFileType hneedF
    have hstore : storeResource false S C .configFileType (.sandboxConfig c) fs
        = storeFile (containerResourcePath S C .configFileType) (.jSandboxConfig c) fs := by
      unfold storeResource storeSandboxAndContainerConfigResource
      simp only [hchk, huri]
      simp
    unfold storeThenFetch
    simp only [kindOf, targetOf]
    rw [hstore, storeFile_ok _ _ _ (containerResourcePath_ne_nil S C _) hcf
      (by rw [containerResourcePath, parentDir_concat]; exact hdir) hwf]
    exact fetchResource_stored_plain false S C hS .configFileType .tSandboxConfig
      (.jSandboxConfig c) _ hneedF (by simp) (by simp) (lookupFile_putFile_self _ _ _)
  | containerConfig c =>
    simp only [kindOf] at hdir hcf hwf
    have hneedF : ¬(resourceNeedsContainerID false .configFileType = true ∧ C = "") :=
      fun h => hC h.2
    have hchk := commonResourceChecks_ok false S C hS .configFileType (by simp) hneedF
    have huri := resourceURI_ok false S C hS .configFileType hneedF
    have hstore : storeResource false S C .configFileType (.containerConfig c) fs
        = storeFile (containerResourcePath S C .configFileType) (.jContainerConfig c) fs := by
      unfold storeResource storeSandboxAndContainerConfigResource
      simp only [hchk, huri]
      simp
    unfold storeThenFetch
    simp only [kindOf, targetOf]
    rw [hstore, storeFile_ok _ _ _ (containerResourcePath_ne_nil S C _) hcf
      (by rw [containerResourcePath, parentDir_concat]; exact hdir) hwf]
    exact fetchResource_stored_plain false S C hS .configFileType .tContainerConfig
      (.jContainerConfig c) _ hneedF (by simp) (by simp) (lookupFile_putFile_self _ _ _)
  | state s =>
    simp only [kindOf] at hdir hcf hwf
    have hneedF : ¬(resourceNeedsContainerID false .stateFileType = true ∧ C = "") :=
      fun h => hC h.2
    have hchk := commonResourceChecks_ok false S C hS .stateFileType (by simp) hneedF
    have huri := resourceURI_ok false S C hS .stateFileType hneedF
    have hstore : storeResource false S C .stateFileType (.state s) fs
        = storeFile (containerResourcePath S C .stateFileType) (.jState s) fs := by
      unfold storeResource storeStateResource
      simp only [hchk, huri]
      simp
    unfold storeThenFetch
    simp only [kindOf, targetOf]
    rw [hstore, storeFile_ok _ _ _ (containerResourcePath_ne_nil S C _) hcf
      (by rw [containerResourcePath, parentDir_concat]; exact hdir) hwf]
    exact fetchResource_stored_plain false S C hS .stateFileType .tState
      (.jState s) _ hneedF (by simp) (by simp) (lookupFile_putFile_self _ _ _)
  | network n =>
    simp only [kindOf] at hdir hcf hwf
    have hneedF : ¬(resourceNeedsContainerID false .networkFileType = true ∧ C = "") :=
      fun h => hC h.2
    have hneedT : ¬(resourceNeedsContainerID true .networkFileType = true ∧ C = "") := by
      rw [resourceNeedsContainerID_true]
      simp
    have hchk := commonResourceChecks_ok false S C hS .networkFileType (by simp) hneedF
    have huriT := resourceURI_ok true S C hS .networkFileType hneedT
    have hstore : storeResource false S C .networkFileType (.network n) fs
        = storeFile (containerResourcePath S C .networkFileType) (.jNetwork n) fs := by
      unfold storeResource storeNetworkResource
      simp only [hchk, huriT]
      simp
    unfold storeThenFetch
    simp only [kindOf, targetOf]
    rw [hstore, storeFile_ok _ _ _ (containerResourcePath_ne_nil S C _) hcf
      (by rw [containerResourcePath, parentDir_concat]; exact hdir) hwf]
    exact fetchResource_stored_plain false S C hS .networkFileType .tNetwork
      (.jNetwork n) _ hneedF (by simp) (by simp) (lookupFile_putFile_self _ _ _)
  | process p =>
    simp only [kindOf] at hdir hcf hwf
    have hneedF : ¬(resourceNeedsContainerID false .processFileType = true ∧ C = "") :=
      fun h => hC h.2
    have hchk := commonResourceChecks_ok false S C hS .processFileType (by simp) hneedF
    have huri := resourceURI_ok false S C hS .processFileType hneedF
    have hstore : storeResource false S C .processFileType (.process p) fs
        = storeFile (containerResourcePath S C .processFileType) (.jProcess p) fs := by
      unfold storeResource storeProcessResource
      simp only [hchk, huri]
      simp
    unfold storeThenFetch
    simp only [kindOf, targetOf]
    rw [hstore, storeFile_ok _ _ _ (containerResourcePath_ne_nil S C _) hcf
      (by rw [containerResourcePath, parentDir_concat]; exact hdir) hwf]
    exact fetchResource_stored_plain false S C hS .processFileType .tProcess
      (.jProcess p) _ hneedF (by simp) (by simp) (lookupFile_putFile_self _ _ _)
  | mounts m =>
    simp only [kindOf] at hdir hcf hwf
    have hneedF : ¬(resourceNeedsContainerID false .mountsFileType = true ∧ C = "") :=
      fun h => hC h.2
    have hchk := commonResourceChecks_ok false S C hS .mountsFileType (by simp) hneedF
    have huri := resourceURI_ok false S C hS .mountsFileType hneedF
    have hstore : storeResource false S C .mountsFileType (.mounts m) fs
        = storeFile (containerResourcePath S C .mountsFileType) (.jMounts m) fs := by
      unfold storeResource storeMountResource
      simp only [hchk, huri]
      simp
    unfold storeThenFetch
    simp only [kindOf, targetOf]
    rw [hstore, storeFile_ok _ _ _ (containerResourcePath_ne_nil S C _) hcf
      (by rw [containerResourcePath, parentDir_concat]; exact hdir) hwf]
    exact fetchResource_stored_plain false S C hS .mountsFileType .tMounts
      (.jMounts m) _ hneedF (by simp) (by simp) (lookupFile_putFile_self _ _ _)
  | devices ds =>
    simp only [kindOf] at hdir hcf hwf
    have hneedF : ¬(resourceNeedsContainerID false .devicesFileType = true ∧ C = "") :=
      fun h => hC h.2
    have hchk := commonResourceChecks_ok false S C hS .devicesFileType (by simp) hneedF
    have huri := resourceURI_ok false S C hS .devicesFileType hneedF
    have hstore : storeResource false S C .devicesFileType (.devices ds) fs
        = storeDeviceFile (containerResourcePath S C .devicesFileType) ds fs := by
      unfold storeResource storeDeviceResource
      simp only [hchk, huri]
      simp
    unfold storeThenFetch
    simp only [kindOf, targetOf]
    rw [hstore, storeDeviceFile_ok _ _ _ (containerResourcePath_ne_nil S C _) hcf
      (by rw [containerResourcePath, parentDir_concat]; exact hdir) hwf]
    exact fetchResource_stored_devices false S C hS ds _ hneedF
      (lookupFile_putFile_self _ _ _)

theorem pathJoin_two (root : Path) (S C : String) (hS : S ≠ "") (hC : C ≠ "") :
    pathJoin root [S, C] = root ++ [S, C] := by
  have hSb : (S == "") = false := beq_eq_false_iff_ne.mpr hS
  have hCb : (C == "") = false := beq_eq_false_iff_ne.mpr hC
  simp [pathJoin, hSb, hCb]

theorem pathJoin_dropSecond (root : Path) (S : String) (hS : S ≠ "") :
    pathJoin root [S, ""] = root ++ [S] := by
  have hSb : (S == "") = false := beq_eq_false_iff_ne.mpr hS
  simp [pathJoin, hSb]

theorem containerResourcePath_sandbox (S : String) (hS : S ≠ "")
    (r : sandboxResource) :
    containerResourcePath S "" r = (resourceRoot r ++ [S]) ++ [resourceFileName r] := by
  unfold containerResourcePath containerResourceDirPath
  rw [pathJoin_dropSecond (resourceRoot r) S hS]

theorem containerResourcePath_container (S C : String) (hS : S ≠ "") (hC : C ≠ "")
    (r : sandboxResource) :
    containerResourcePath S C r
      = (resourceRoot r ++ [S]) ++ ([C] ++ [resourceFileName r]) := by
  unfold containerResourcePath containerResourceDirPath
  rw [pathJoin_two (resourceRoot r) S C hS hC]
  simp

theorem deleteSandboxResources_default (S : String) (hS : S ≠ "") (fs : FS) :
    deleteSandboxResources S none fs
      = (.ok (), removeAll (containerResourceDirPath S "" .stateFileType)
          (removeAll (containerResourceDirPath S "" .configFileType) fs)) := by
  have h1 := resourceURI_ok true S "" hS .configFileType
    (by rw [resourceNeedsContainerID_true]; simp)
  have h2 := resourceURI_ok true S "" hS .stateFileType
    (by rw [resourceNeedsContainerID_true]; simp)
  simp [deleteSandboxResources, deleteSandboxLoop, sandboxURI, h1, h2]

theorem dirPath_config_eval (S : String) (hS : S ≠ "") :
    containerResourceDirPath S "" .configFileType = configStoragePath ++ [S] := by
  unfold containerResourceDirPath resourceRoot
  rw [if_pos rfl, pathJoin_dropSecond configStoragePath S hS]

theorem dirPath_state_eval (S : String) (hS : S ≠ "") :
    containerResourceDirPath S "" .stateFileType = runStoragePath ++ [S] := by
  unfold containerResourceDirPath resourceRoot
  rw [if_neg (by simp), pathJoin_dropSecond runStoragePath S hS]

theorem delete_clean (S : String) (hS : S ≠ "") (fsX : FS) (p : Path)
    (hp : underDir (configStoragePath ++ [S]) p = true ∨
          underDir (runStoragePath ++ [S]) p = true) :
    (deleteSandboxResources S none fsX).snd.lookupFile p = none ∧
    (deleteSandboxResources S none fsX).snd.hasDir p = false := by
  rw [deleteSandboxResources_default S hS fsX,
    dirPath_config_eval S hS, dirPath_state_eval S hS]
  rcases hp with h | h
  · exact ⟨lookupFile_removeAll_of_none _ _ _ (lookupFile_removeAll_of_under _ _ _ h),
      hasDir_removeAll_of_false _ _ _ (hasDir_removeAll_of_under _ _ _ h)⟩
  · exact ⟨lookupFile_removeAll_of_under _ _ _ h,
      hasDir_removeAll_of_under _ _ _ h⟩

theorem fetchResource_notFound (spec : Bool) (S C : String) (hS : S ≠ "")
    (r : sandboxResource) (t : FetchTarget) (fs2 : FS)
    (hneed : ¬(resourceNeedsContainerID spec r = true ∧ C = ""))
    (hr : r ≠ .lockFileType)
    (hlook : fs2.lookupFile (containerResourcePath S C r) = none) :
    fetchResource spec S C r t fs2 = .error .notFound := by
  unfold fetchResource
  rw [commonResourceChecks_ok spec S C hS r hr hneed,
    resourceURI_ok spec S C hS r hneed]
  unfold fetchFile
  simp [containerResourcePath_ne_nil S C r, hlook]

theorem underDir_resourcePath_root (S : String) (hS : S ≠ "") (r : sandboxResource) :
    underDir (configStoragePath ++ [S]) (containerResourcePath S "" r) = true ∨
    underDir (runStoragePath ++ [S]) (containerResourcePath S "" r) = true := by
  rw [containerResourcePath_sandbox S hS r]
  by_cases hc : r = .configFileType
  · left
    subst hc
    rw [show resourceRoot .configFileType = configStoragePath from rfl]
    exact underDir_append _ _
  · right
    have : resourceRoot r = runStoragePath := by
      unfold resourceRoot
      rw [if_neg hc]
    rw [this]
    exact underDir_append _ _

theorem underDir_resourcePath_root_container (S C : String) (hS : S ≠ "") (hC : C ≠ "")
    (r : sandboxResource) :
    underDir (configStoragePath ++ [S]) (containerResourcePath S C r) = true ∨
    underDir (runStoragePath ++ [S]) (containerResourcePath S C r) = true := by
  rw [containerResourcePath_container S C hS hC r]
  by_cases hc : r = .configFileType
  · left
    subst hc
    rw [show resourceRoot .configFileType = configStoragePath from rfl]
    exact underDir_append _ _
  · right
    have : resourceRoot r = runStoragePath := by
      unfold resourceRoot
      rw [if_neg hc]
    rw [this]
    exact underDir_append _ _

/-- C3: deleting a sandbox's resources with an empty (nil) kind set defaults
to the configuration and state kinds, succeeds, and recursively removes the
entire container subtree: afterwards, fetching any fetchable resource kind
at sandbox level for S, or for any container C under S, fails with the
not-found error. (lockFileType is excluded: the lock is not a fetchable
resource — commonResourceChecks rejects it with the invalid-resource error
before any file access.) -/
theorem C3_delete_subtree (S C : String) (hS : S ≠ "") (hC : C ≠ "")
    (r : sandboxResource) (hr : r ≠ .lockFileType) (t : FetchTarget) (fs : FS) :
    deleteSandboxResources S none fs
      = deleteSandboxResources S (some [.configFileType, .stateFileType]) fs ∧
    (deleteSandboxResources S none fs).fst = .ok () ∧
    fetchResource true S "" r t (deleteSandboxResources S none fs).snd
      = .error .notFound ∧
    fetchResource false S C r t (deleteSandboxResources S none fs).snd
      = .error .notFound := by
  refine ⟨rfl, ?_, ?_, ?_⟩
  · rw [deleteSandboxResources_default S hS fs]
  · refine fetchResource_notFound true S "" hS r t _
      (by rw [resourceNeedsContainerID_true]; simp) hr ?_
    exact (delete_clean S hS fs _ (underDir_resourcePath_root S hS r)).1
  · refine fetchResource_notFound false S C hS r t _ (fun h => hC h.2) hr ?_
    exact (delete_clean S hS fs _
      (underDir_resourcePath_root_container S C hS hC r)).1

/-- Witness for C3_delete_subtree at a concrete input. -/
theorem C3_delete_subtree_witness :
    (deleteSandboxResources "s" none
        { files := [(["/run", "vc", "sbs", "s", "c", "state.json"],
            .jState { stateStr := "running" })],
          dirs := [["/run", "vc", "sbs", "s", "c"]],
          createFailing := [], writeFailing := [] }).fst = .ok () ∧
    fetchResource false "s" "c" .stateFileType .tState
      (deleteSandboxResources "s" none
        { files := [(["/run", "vc", "sbs", "s", "c", "state.json"],
            .jState { stateStr := "running" })],
          dirs := [["/run", "vc", "sbs", "s", "c"]],
          createFailing := [], writeFailing := [] }).snd = .error .notFound := by
  have h := C3_delete_subtree "s" "c" (by decide) (by decide) .stateFileType
    (by decide) .tState
    { files := [(["/run", "vc", "sbs", "s", "c", "state.json"],
        .jState { stateStr := "running" })],
      dirs := [["/run", "vc", "sbs", "s", "c"]],
      createFailing := [], writeFailing := [] }
  exact ⟨h.2.1, h.2.2.2⟩

/-- Witness for C1_roundtrip at a concrete input: storing then fetching a
state value for sandbox "s", container "c". -/
theorem C1_roundtrip_witness :
    storeThenFetch "s" "c" (.state { stateStr := "running" })
      { files := [], dirs := [["/run", "vc", "sbs", "s", "c"]],
        createFailing := [], writeFailing := [] }
      = .ok (.state { stateStr := "running" }) := by
  exact C1_roundtrip "s" "c" (by decide) (by decide)
    (.state { stateStr := "running" })
    { files := [], dirs := [["/run", "vc", "sbs", "s", "c"]],
      createFailing := [], writeFailing := [] }
    (by decide) (by decide) (by decide)

theorem fetchDeviceFile_all_known (tds : List TypedDevice)
    (hall : ∀ td ∈ tds, isKnownDeviceTag td.typeTag = true) :
    fetchDeviceFile tds = .ok (tds.map decodeTypedDevice) := by
  induction tds with
  | nil => rfl
  | cons td rest ih =>
    have hhead := hall td (by simp)
    have htail := ih (fun x hx => hall x (by simp [hx]))
    unfold fetchDeviceFile
    unfold isKnownDeviceTag at hhead
    by_cases h1 : td.typeTag = VFIODeviceTag
    · simp [h1, htail, decodeTypedDevice]
    · by_cases h2 : td.typeTag = BlockDeviceTag
      · have hbv : ¬(BlockDeviceTag = VFIODeviceTag) := by decide
        simp [h1, h2, htail, decodeTypedDevice, hbv]
      · by_cases h3 : td.typeTag = GenericDeviceTag
        · have hv : ¬(GenericDeviceTag = VFIODeviceTag) := by decide
          have hb : ¬(GenericDeviceTag = BlockDeviceTag) := by decide
          simp [h1, h2, h3, htail, decodeTypedDevice, hv, hb]
        · exfalso
          have hv2 : (td.typeTag == VFIODeviceTag) = false := beq_eq_false_iff_ne.mpr h1
          have hb2 : (td.typeTag == BlockDeviceTag) = false := beq_eq_false_iff_ne.mpr h2
          have hg2 : (td.typeTag == GenericDeviceTag) = false := beq_eq_false_iff_ne.mpr h3
          rw [hv2, hb2, hg2] at hhead
          simp at hhead

theorem fetchDeviceFile_has_unknown (tds : List TypedDevice)
    (hbad : ∃ td ∈ tds, isKnownDeviceTag td.typeTag = false) :
    fetchDeviceFile tds = .error .unknownDeviceType := by
  induction tds with
  | nil =>
    rcases hbad with ⟨td, htd, _⟩
    simp at htd
  | cons td rest ih =>
    rcases hbad with ⟨x, hx, hxbad⟩
    rcases List.mem_cons.mp hx with hhead | htail
    · subst hhead
      unfold fetchDeviceFile
      unfold isKnownDeviceTag at hxbad
      simp only [Bool.or_eq_false_iff, beq_eq_false_iff_ne] at hxbad
      simp [hxbad.1.1, hxbad.1.2, hxbad.2]
    · have hrest := ih ⟨x, htail, hxbad⟩
      unfold fetchDeviceFile
      by_cases h1 : td.typeTag = VFIODeviceTag
      · simp [h1, hrest]
      · by_cases h2 : td.typeTag = BlockDeviceTag
        · simp [h1, h2, hrest]
        · by_cases h3 : td.typeTag = GenericDeviceTag
          · simp [h1, h2, h3, hrest]
          · simp [h1, h2, h3]

/-- C5: fetching a persisted device collection decodes each stored envelope by
dispatching on its Type tag to the matching concrete decoder (VFIO, Block or
Generic); a collection containing an envelope whose Type tag is none of these
fails with the unknown-device-type error and yields no device collection. -/
theorem C5_device_envelopes (tds : List TypedDevice) (p : Path) (fs : FS)
    (hp : p ≠ [])
    (hstored : fs.lookupFile p = some (.jTypedDevices tds)) :
    ((∀ td ∈ tds, isKnownDeviceTag td.typeTag = true) →
      fetchFile p .devicesFileType .tDevices fs
        = .ok (.devices (tds.map decodeTypedDevice))) ∧
    ((∃ td ∈ tds, isKnownDeviceTag td.typeTag = false) →
      fetchFile p .devicesFileType .tDevices fs = .error .unknownDeviceType) := by
  constructor
  · intro hall
    unfold fetchFile
    simp [hp, hstored, fetchDeviceFile_all_known tds hall]
  · intro hbad
    unfold fetchFile
    simp [hp, hstored, fetchDeviceFile_has_unknown tds hbad]

/-- Witness for C5_device_envelopes at concrete inputs: a one-envelope VFIO
collection decodes, and a collection holding an envelope tagged "tape"
fails with the unknown-device-type error. -/
theorem C5_device_envelopes_witness :
    (fetchFile ["/run", "devices.json"] .devicesFileType .tDevices
        { files := [(["/run", "devices.json"],
            .jTypedDevices [{ typeTag := "vfio",
                              data := .vfio { deviceInfo := default, bdf := "02:00.0" } }])],
          dirs := [], createFailing := [], writeFailing := [] }
      = .ok (.devices [.vfio { deviceInfo := default, bdf := "02:00.0" }])) ∧
    (fetchFile ["/run", "devices.json"] .devicesFileType .tDevices
        { files := [(["/run", "devices.json"],
            .jTypedDevices [{ typeTag := "tape",
                              data := .generic { deviceInfo := default } }])],
          dirs := [], createFailing := [], writeFailing := [] }
      = .error .unknownDeviceType) := by
  constructor
  · have h := C5_device_envelopes
      [{ typeTag := "vfio", data := .vfio { deviceInfo := default, bdf := "02:00.0" } }]
      ["/run", "devices.json"]
      { files := [(["/run", "devices.json"],
          .jTypedDevices [{ typeTag := "vfio",
                            data := .vfio { deviceInfo := default, bdf := "02:00.0" } }])],
        dirs := [], createFailing := [], writeFailing := [] }
      (by simp) (by rfl)
    have h2 := h.1 (by
      intro td htd
      simp only [List.mem_singleton] at htd
      subst htd
      decide)
    exact h2.trans (by rfl)
  · have h := C5_device_envelopes
      [{ typeTag := "tape", data := .generic { deviceInfo := default } }]
      ["/run", "devices.json"]
      { files := [(["/run", "devices.json"],
          .jTypedDevices [{ typeTag := "tape",
                            data := .generic { deviceInfo := default } }])],
        dirs := [], createFailing := [], writeFailing := [] }
      (by simp) (by rfl)
    exact h.2 ⟨{ typeTag := "tape", data := .generic { deviceInfo := default } },
      List.mem_singleton.mpr rfl, by decide⟩

/-- C8: the claim states that a failed write of the serialized bytes is
reported to the caller. In storeFile the source does not check the error of
`f.Write(jsonOut)`: at this concrete input the write syscall fails, yet
storeResource returns success and the canonical file keeps the empty content
left by os.Create (a truncated state.json). storeDeviceFile, by contrast,
checks the same error. -/
theorem C8_write_error_ignored :
    storeResource false "s" "c" .stateFileType (.state { stateStr := "ready" })
      { files := [],
        dirs := [["/run", "vc", "sbs", "s", "c"]],
        createFailing := [],
        writeFailing := [["/run", "vc", "sbs", "s", "c", "state.json"]] }
      = .ok { files := [(["/run", "vc", "sbs", "s", "c", "state.json"], Value.jEmpty)],
              dirs := [["/run", "vc", "sbs", "s", "c"]],
              createFailing := [],
              writeFailing := [["/run", "vc", "sbs", "s", "c", "state.json"]] } := by
  rfl

/-- C4: the claim states that after any failing createAllResources call no
half-initialized sandbox is left visible. A failure in the first loop (the
sandbox's own directories) returns without rollback: here the runtime-root
sandbox directory was created, the configuration-root creation fails, the
call errors, and the runtime directory is left on disk. -/
theorem C4_counterexample :
    (createAllResources { id := "s", containers := [] }
        { files := [], dirs := [],
          createFailing := [["/var/lib", "vc", "sbs", "s"]],
          writeFailing := [] }).fst = .error .ioError ∧
    (createAllResources { id := "s", containers := [] }
        { files := [], dirs := [],
          createFailing := [["/var/lib", "vc", "sbs", "s"]],
          writeFailing := [] }).snd.hasDir ["/run", "vc", "sbs", "s"] = true := by
  constructor
  · rfl
  · rfl

/-- C4 (amended): createAllResources rolls back only for failures after the
sandbox's own directories were created. If the sandbox-directory phase
succeeded and the call still fails (a container-directory creation or the
lock-file phase failed), it deletes everything for that sandbox before
returning: no file or directory under either storage root's subtree for the
sandbox remains. A failure in the sandbox-directory phase itself returns
without rollback (see the counterexample). -/
theorem createAll_fail_phase2 (sb : Sandbox) (fs fs1 fs2 : FS) (u : Unit) (e2 : Err)
    (hE : createSandboxDirs sb.id [.stateFileType, .configFileType] fs = (.ok u, fs1))
    (hc : createContainerDirs sb.id sb.containers fs1 = (.error e2, fs2)) :
    createAllResources sb fs
      = (.error e2, (deleteSandboxResources sb.id none fs2).snd) := by
  unfold createAllResources
  simp only [hE, hc]

theorem createAll_lock_phase (sb : Sandbox) (fs fs1 fs2 : FS) (u v : Unit)
    (hid : sb.id ≠ "")
    (hE : createSandboxDirs sb.id [.stateFileType, .configFileType] fs = (.ok u, fs1))
    (hc : createContainerDirs sb.id sb.containers fs1 = (.ok v, fs2)) :
    createAllResources sb fs
      = match fs2.lookupFile (containerResourcePath sb.id "" .lockFileType) with
        | some _ => (.ok (), fs2)
        | none =>
          match osCreate (containerResourcePath sb.id "" .lockFileType) fs2 with
          | .error e => (.error e, (deleteSandboxResources sb.id none fs2).snd)
          | .ok fs3 => (.ok (), fs3) := by
  have hlockuri : sandboxURI sb.id .lockFileType
      = .ok (containerResourcePath sb.id "" .lockFileType,
             containerResourceDirPath sb.id "" .lockFileType) := by
    unfold sandboxURI
    exact resourceURI_ok true sb.id "" hid .lockFileType
      (by rw [resourceNeedsContainerID_true]; simp)
  unfold createAllResources
  simp only [hE, hc, hlockuri]

theorem C4_rollback (sb : Sandbox) (fs : FS) (e : Err) (hid : sb.id ≠ "")
    (h1 : (createSandboxDirs sb.id [.stateFileType, .configFileType] fs).fst = .ok ())
    (h2 : (createAllResources sb fs).fst = .error e)
    (p : Path)
    (hp : underDir (configStoragePath ++ [sb.id]) p = true ∨
          underDir (runStoragePath ++ [sb.id]) p = true) :
    (createAllResources sb fs).snd.lookupFile p = none ∧
    (createAllResources sb fs).snd.hasDir p = false := by
  rcases hE : createSandboxDirs sb.id [.stateFileType, .configFileType] fs with ⟨res1, fs1⟩
  rw [hE] at h1
  cases res1 with
  | error e1 => exact Except.noConfusion h1
  | ok u =>
    rcases hc : createContainerDirs sb.id sb.containers fs1 with ⟨res2, fs2⟩
    cases res2 with
    | error e2 =>
      rw [createAll_fail_phase2 sb fs fs1 fs2 u e2 hE hc]
      exact delete_clean sb.id hid fs2 p hp
    | ok v =>
      rw [createAll_lock_phase sb fs fs1 fs2 u v hid hE hc] at h2 ⊢
      cases hlk : fs2.lookupFile (containerResourcePath sb.id "" .lockFileType) with
      | some w =>
        rw [hlk] at h2
        exact Except.noConfusion h2
      | none =>
        rw [hlk] at h2
        cases ho : osCreate (containerResourcePath sb.id "" .lockFileType) fs2 with
        | error e3 =>
          rw [ho] at h2
          exact delete_clean sb.id hid fs2 p hp
        | ok fs3 =>
          rw [ho] at h2
          exact Except.noConfusion h2

/-- The four kinds the static table marks sandbox-scoped. -/
def sandboxOnlyKind (r : sandboxResource) : Prop :=
  r = .lockFileType ∨ r = .networkFileType ∨ r = .hypervisorFileType ∨ r = .agentFileType

theorem needs_false_of_sandboxOnly (spec : Bool) (r : sandboxResource)
    (h : sandboxOnlyKind r) : resourceNeedsContainerID spec r = false := by
  rcases h with h | h | h | h <;> subst h <;> rfl

theorem needs_true_of_not_sandboxOnly (r : sandboxResource)
    (h : ¬ sandboxOnlyKind r) : resourceNeedsContainerID false r = true := by
  cases r <;> simp_all [sandboxOnlyKind, resourceNeedsContainerID]

theorem commonChecks_four_ne (spec : Bool) (S C : String) (r : sandboxResource)
    (hfour : resourceNeedsContainerID spec r = false) :
    commonResourceChecks spec S C r ≠ .error .needContainerID := by
  unfold commonResourceChecks
  by_cases hSe : S = ""
  · simp [hSe]
  · rw [if_neg hSe, if_neg (by rw [hfour]; simp)]
    cases r <;> simp

theorem resourceDir_four_ne (spec : Bool) (S C : String) (r : sandboxResource)
    (hfour : resourceNeedsContainerID spec r = false) :
    resourceDir spec S C r ≠ .error .needContainerID := by
  unfold resourceDir
  by_cases hSe : S = ""
  · simp [hSe]
  · rw [if_neg hSe, if_neg (by rw [hfour]; simp)]
    cases r <;> simp

theorem resourceURI_four_ne (spec : Bool) (S C : String) (r : sandboxResource)
    (hfour : resourceNeedsContainerID spec r = false) :
    resourceURI spec S C r ≠ .error .needContainerID := by
  by_cases hSe : S = ""
  · unfold resourceURI
    simp [hSe]
  · rw [resourceURI_ok spec S C hSe r (by rw [hfour]; simp)]
    simp

theorem storeFile_ne_needCID (file : Path) (v : Value) (fs : FS) :
    storeFile file v fs ≠ .error .needContainerID := by
  unfold storeFile osCreate fileWrite
  by_cases h0 : file = [] <;>
    by_cases h1 : file ∈ fs.createFailing <;>
      by_cases h2 : fs.hasDir (parentDir file) = true <;>
        by_cases h3 : file ∈ fs.writeFailing <;>
          simp [h0, h1, h2, h3, FS.putFile]

theorem storeDeviceFile_ne_needCID (file : Path) (ds : List Device) (fs : FS) :
    storeDeviceFile file ds fs ≠ .error .needContainerID := by
  unfold storeDeviceFile osCreate fileWrite
  by_cases h0 : file = [] <;>
    by_cases h1 : file ∈ fs.createFailing <;>
      by_cases h2 : fs.hasDir (parentDir file) = true <;>
        by_cases h3 : file ∈ fs.writeFailing <;>
          simp [h0, h1, h2, h3, FS.putFile]

theorem fetchDeviceFile_ne_needCID (tds : List TypedDevice) :
    fetchDeviceFile tds ≠ .error .needContainerID := by
  induction tds with
  | nil => simp [fetchDeviceFile]
  | cons td rest ih =>
    unfold fetchDeviceFile
    by_cases h1 : td.typeTag = VFIODeviceTag
    · rw [if_pos h1]
      cases hre : fetchDeviceFile rest with
      | error e2 =>
        rw [hre] at ih
        simpa using ih
      | ok ds => simp
    · rw [if_neg h1]
      by_cases h2 : td.typeTag = BlockDeviceTag
      · rw [if_pos h2]
        cases hre : fetchDeviceFile rest with
        | error e2 =>
          rw [hre] at ih
          simpa using ih
        | ok ds => simp
      · rw [if_neg h2]
        by_cases h3 : td.typeTag = GenericDeviceTag
        · rw [if_pos h3]
          cases hre : fetchDeviceFile rest with
          | error e2 =>
            rw [hre] at ih
            simpa using ih
          | ok ds => simp
        · rw [if_neg h3]
          simp

theorem unmarshalAs_ne_needCID (t : FetchTarget) (v : Value) :
    unmarshalAs t v ≠ .error .needContainerID := by
  cases t <;> cases v <;> simp [unmarshalAs]

theorem fetchFile_ne_needCID (file : Path) (r : sandboxResource) (t : FetchTarget)
    (fs : FS) : fetchFile file r t fs ≠ .error .needContainerID := by
  unfold fetchFile
  split
  · simp
  · split
    · simp
    · rename_i fileData heq
      split
      · split
        · cases fileData with
          | jTypedDevices tds =>
            cases hfd : fetchDeviceFile tds with
            | error e2 =>
              have hne := fetchDeviceFile_ne_needCID tds
              rw [hfd] at hne
              simpa [hfd] using hne
            | ok ds => simp [hfd]
          | jSandboxConfig c => simp
          | jContainerConfig c => simp
          | jState s => simp
          | jNetwork n => simp
          | jProcess q => simp
          | jMounts m => simp
          | jEmpty => simp
        · simp
      · exact unmarshalAs_ne_needCID t fileData

theorem fetchResource_four_ne (spec : Bool) (S C : String) (r : sandboxResource)
    (t : FetchTarget) (fs : FS)
    (hfour : resourceNeedsContainerID spec r = false) :
    fetchResource spec S C r t fs ≠ .error .needContainerID := by
  unfold fetchResource
  cases hcc : commonResourceChecks spec S C r with
  | error e =>
    have hne := commonChecks_four_ne spec S C r hfour
    rw [hcc] at hne
    simpa using hne
  | ok u =>
    cases hu : resourceURI spec S C r with
    | error e =>
      have hne := resourceURI_four_ne spec S C r hfour
      rw [hu] at hne
      simpa using hne
    | ok pr =>
      obtain ⟨p1, p2⟩ := pr
      show fetchFile p1 r t fs ≠ .error .needContainerID
      exact fetchFile_ne_needCID p1 r t fs

theorem storeResource_four_ne (spec : Bool) (S C : String) (r : sandboxResource)
    (d : StoreData) (fs : FS) (hfour : sandboxOnlyKind r) :
    storeResource spec S C r d fs ≠ .error .needContainerID := by
  have hneeds := needs_false_of_sandboxOnly spec r hfour
  have hrconf : r ≠ .configFileType := by
    rcases hfour with h | h | h | h <;> subst h <;> simp
  have hrstate : r ≠ .stateFileType := by
    rcases hfour with h | h | h | h <;> subst h <;> simp
  have hrproc : r ≠ .processFileType := by
    rcases hfour with h | h | h | h <;> subst h <;> simp
  have hrmounts : r ≠ .mountsFileType := by
    rcases hfour with h | h | h | h <;> subst h <;> simp
  have hrdev : r ≠ .devicesFileType := by
    rcases hfour with h | h | h | h <;> subst h <;> simp
  cases hcc : commonResourceChecks spec S C r with
  | error e =>
    have hred : storeResource spec S C r d fs = .error e := by
      unfold storeResource
      simp only [hcc]
    rw [hred]
    have hne := commonChecks_four_ne spec S C r hneeds
    rw [hcc] at hne
    simpa using hne
  | ok u =>
    cases d with
    | sandboxConfig c =>
      have hred : storeResource spec S C r (.sandboxConfig c) fs
          = storeSandboxAndContainerConfigResource spec S C r (.jSandboxConfig c) fs := by
        unfold storeResource
        simp only [hcc]
      rw [hred]
      unfold storeSandboxAndContainerConfigResource
      rw [if_pos hrconf]
      simp
    | containerConfig c =>
      have hred : storeResource spec S C r (.containerConfig c) fs
          = storeSandboxAndContainerConfigResource spec S C r (.jContainerConfig c) fs := by
        unfold storeResource
        simp only [hcc]
      rw [hred]
      unfold storeSandboxAndContainerConfigResource
      rw [if_pos hrconf]
      simp
    | state s =>
      have hred : storeResource spec S C r (.state s) fs
          = storeStateResource spec S C r (.jState s) fs := by
        unfold storeResource
        simp only [hcc]
      rw [hred]
      unfold storeStateResource
      rw [if_pos hrstate]
      simp
    | process q =>
      have hred : storeResource spec S C r (.process q) fs
          = storeProcessResource spec S C r (.jProcess q) fs := by
        unfold storeResource
        simp only [hcc]
      rw [hred]
      unfold storeProcessResource
      rw [if_pos hrproc]
      simp
    | mounts m =>
      have hred : storeResource spec S C r (.mounts m) fs
          = storeMountResource spec S C r (.jMounts m) fs := by
        unfold storeResource
        simp only [hcc]
      rw [hred]
      unfold storeMountResource
      rw [if_pos hrmounts]
      simp
    | devices ds =>
      have hred : storeResource spec S C r (.devices ds) fs
          = storeDeviceResource spec S C r ds fs := by
        unfold storeResource
        simp only [hcc]
      rw [hred]
      unfold storeDeviceResource
      rw [if_pos hrdev]
      simp
    | network n =>
      have hred : storeResource spec S C r (.network n) fs
          = storeNetworkResource spec S C r (.jNetwork n) fs := by
        unfold storeResource
        simp only [hcc]
      rw [hred]
      unfold storeNetworkResource
      by_cases hrn : r = .networkFileType
      · rw [if_neg (not_not_intro hrn)]
        cases hu : resourceURI true S C .networkFileType with
        | error e =>
          have hne := resourceURI_four_ne true S C .networkFileType (by rfl)
          rw [hu] at hne
          simpa using hne
        | ok pr =>
          obtain ⟨p1, p2⟩ := pr
          show storeFile p1 (.jNetwork n) fs ≠ .error .needContainerID
          exact storeFile_ne_needCID p1 (.jNetwork n) fs
      · rw [if_pos hrn]
        simp

theorem resourceDirURI_other_empty (S : String) (hS : S ≠ "") (r : sandboxResource)
    (hneed : resourceNeedsContainerID false r = true) :
    resourceDir false S "" r = .error .needContainerID ∧
    resourceURI false S "" r = .error .needContainerID := by
  constructor
  · unfold resourceDir
    rw [if_neg hS, if_pos ⟨hneed, rfl⟩]
  · unfold resourceURI resourceDir
    rw [if_neg hS, if_neg hS, if_pos ⟨hneed, rfl⟩]

theorem resourceDir_root_of_ok (spec : Bool) (S C : String) (r : sandboxResource)
    (dir : Path) (h : resourceDir spec S C r = .ok dir) :
    dir = pathJoin (resourceRoot r) [S, C] := by
  unfold resourceDir at h
  by_cases hSe : S = ""
  · rw [if_pos hSe] at h
    exact Except.noConfusion h
  · rw [if_neg hSe] at h
    by_cases hn : resourceNeedsContainerID spec r = true ∧ C = ""
    · rw [if_pos hn] at h
      exact Except.noConfusion h
    · rw [if_neg hn] at h
      unfold resourceRoot
      cases r <;> simp_all

theorem containerURI_requires_cid (S : String) (hS : S ≠ "") (r : sandboxResource) :
    containerURI S "" r = .error .needContainerID := by
  unfold containerURI
  rw [if_neg hS, if_pos rfl]

/-- C7: the claim states that lockFileType, networkFileType,
hypervisorFileType and agentFileType never require a container id in any
resource access, URI resolution included, regardless of whether the caller
declares the operation sandbox-level. containerURI — the URI resolution entry
point for container-scoped access — rejects an empty container id for every
kind: at this concrete input a networkFileType URI resolution fails with the
missing-container-id error, refuting the universal claim. -/
theorem C7_counterexample :
    containerURI "sbx" "" .networkFileType = .error .needContainerID := by
  rfl

/-- C7 (amended): in the generic resource path, the four sandbox-scoped kinds
(lock, network, hypervisor, agent) never fail with the missing-container-id
error — not in resourceDir, resourceURI, commonResourceChecks, storeResource
or fetchResource, for either value of the sandbox-level flag; every other
kind fails with the missing-container-id error when the container id is empty
and the caller did not declare a sandbox-level operation; the root directory
a kind lives under is fixed per kind (configuration root for configFileType,
runtime root for all others); but the container-scoped wrapper containerURI
rejects an empty container id for every kind, the four included. -/
theorem C7_amended :
    (∀ (spec : Bool) (S C : String) (r : sandboxResource), sandboxOnlyKind r →
      resourceDir spec S C r ≠ .error .needContainerID ∧
      resourceURI spec S C r ≠ .error .needContainerID ∧
      commonResourceChecks spec S C r ≠ .error .needContainerID ∧
      (∀ (d : StoreData) (fs : FS),
        storeResource spec S C r d fs ≠ .error .needContainerID) ∧
      (∀ (t : FetchTarget) (fs : FS),
        fetchResource spec S C r t fs ≠ .error .needContainerID)) ∧
    (∀ (S : String) (r : sandboxResource), S ≠ "" → ¬ sandboxOnlyKind r →
      resourceDir false S "" r = .error .needContainerID ∧
      resourceURI false S "" r = .error .needContainerID) ∧
    (∀ (spec : Bool) (S C : String) (r : sandboxResource) (dir : Path),
      resourceDir spec S C r = .ok dir → dir = pathJoin (resourceRoot r) [S, C]) ∧
    (∀ (S : String) (r : sandboxResource), S ≠ "" →
      containerURI S "" r = .error .needContainerID) := by
  refine ⟨?_, ?_, ?_, ?_⟩
  · intro spec S C r hfour
    have hneeds := needs_false_of_sandboxOnly spec r hfour
    exact ⟨resourceDir_four_ne spec S C r hneeds,
      resourceURI_four_ne spec S C r hneeds,
      commonChecks_four_ne spec S C r hneeds,
      fun d fs => storeResource_four_ne spec S C r d fs hfour,
      fun t fs => fetchResource_four_ne spec S C r t fs hneeds⟩
  · intro S r hS hnf
    exact resourceDirURI_other_empty S hS r (needs_true_of_not_sandboxOnly r hnf)
  · intro spec S C r dir h
    exact resourceDir_root_of_ok spec S C r dir h
  · intro S r hS
    exact containerURI_requires_cid S hS r

/-- Witness for C7_amended at concrete inputs. -/
theorem C7_amended_witness :
    fetchResource false "sbx" "" .networkFileType .tNetwork
      { files := [], dirs := [], createFailing := [], writeFailing := [] }
      ≠ .error .needContainerID ∧
    resourceDir false "sbx" "" .stateFileType = .error .needContainerID ∧
    containerURI "sbx" "" .hypervisorFileType = .error .needContainerID := by
  refine ⟨?_, ?_, ?_⟩
  · exact (C7_amended.1 false "sbx" "" .networkFileType
      (Or.inr (Or.inl rfl))).2.2.2.2 .tNetwork
      { files := [], dirs := [], createFailing := [], writeFailing := [] }
  · exact (C7_amended.2.1 "sbx" .stateFileType (by decide)
      (by simp [sandboxOnlyKind])).1
  · exact C7_amended.2.2.2 "sbx" .hypervisorFileType (by decide)

/-- Witness for C4_rollback at a concrete input: one container whose
runtime directory creation fails; after the failing call, the runtime-root
sandbox directory created in the first phase is gone. -/
theorem C4_rollback_witness :
    (createAllResources { id := "s", containers := [{ id := "c" }] }
        { files := [], dirs := [],
          createFailing := [["/run", "vc", "sbs", "s", "c"]],
          writeFailing := [] }).snd.lookupFile ["/run", "vc", "sbs", "s"] = none ∧
    (createAllResources { id := "s", containers := [{ id := "c" }] }
        { files := [], dirs := [],
          createFailing := [["/run", "vc", "sbs", "s", "c"]],
          writeFailing := [] }).snd.hasDir ["/run", "vc", "sbs", "s"] = false := by
  exact C4_rollback { id := "s", containers := [{ id := "c" }] }
    { files := [], dirs := [],
      createFailing := [["/run", "vc", "sbs", "s", "c"]],
      writeFailing := [] }
    .ioError (by decide) (by rfl) (by rfl)
    ["/run", "vc", "sbs", "s"] (Or.inr (by rfl))

end KataV
